import Mathlib

/-!
Verification development for a FastAPI template scaffold consisting of two
source files: `demo/python-app/app/main.py` (application bootstrap and root
endpoint) and
`src/plugins/python/templates/fastapi/app/config.py` (settings provider).
Field names, types, defaults and the literal payloads are embedded from the
source; the environment-resolution machinery of the external settings
library is modelled from the specification, as noted on each definition.
-/

namespace DevTools

/-- The `Settings` record declared in `config.py`: two fields with the
hard-coded defaults written in the class body. -/
structure Settings where
  app_name : String := "My FastAPI App"
  debug : Bool := false
deriving Repr, DecidableEq

/-- The `env_file` name given in `Settings.Config` in `config.py`. -/
def env_file : String := ".env"

/-- An environment source: an association list from variable names to
string values (process environment variables, or the parsed contents of
the optional environment file). -/
def Env : Type := List (String × String)

/-- Lower-case an ASCII character (the external settings library matches
environment keys to field names case-insensitively). -/
def lowerChar (c : Char) : Char :=
  if 65 ≤ c.toNat ∧ c.toNat ≤ 90 then Char.ofNat (c.toNat + 32) else c

/-- Lower-case a string, character by character. -/
def lowerStr (s : String) : String := String.mk (s.data.map lowerChar)

/-- Case-insensitive lookup of a field's value in an environment source. -/
def envLookup (e : Env) (key : String) : Option String :=
  (List.find? (fun p => lowerStr p.1 == lowerStr key) e).map (fun p => p.2)

/-- Modelled from the spec: boolean-token coercion performed by the
external settings-validation library. A truthy token coerces to `true`, a
falsy token to `false`, and any other token is a coercion failure (the
spec: "an invalid value (e.g., a non-boolean token) causes construction to
fail"). -/
def parseBool (s : String) : Option Bool :=
  let t := lowerStr s
  if t = "true" ∨ t = "1" ∨ t = "yes" ∨ t = "on" ∨ t = "y" ∨ t = "t" then
    some true
  else if t = "false" ∨ t = "0" ∨ t = "no" ∨ t = "off" ∨ t = "n" ∨ t = "f" then
    some false
  else none

/-- Explicit constructor overrides passed to `Settings(...)`; the module
in `config.py` passes none (`settings = Settings()`). -/
structure SettingsOverrides where
  app_name : Option String := none
  debug : Option Bool := none

/-- The environment state visible to a Settings construction: the process
environment variables, and the key-value contents of the optional
environment file (`.env`). -/
structure EnvState where
  envVars : Env
  envFile : Env

/-- Modelled from the spec: resolution of a string-typed field by the
external settings library's precedence order — explicit override, then
environment variable, then environment file, then the hard-coded default.
String coercion cannot fail. -/
def resolveStr (ov : Option String) (envVal fileVal : Option String)
    (d : String) : String :=
  match ov with
  | some v => v
  | none =>
    match envVal with
    | some s => s
    | none =>
      match fileVal with
      | some s => s
      | none => d

/-- Modelled from the spec: resolution of a boolean-typed field by the
same precedence order; an environment-sourced token that is not a boolean
token is a coercion failure (`none`). -/
def resolveBool (ov : Option Bool) (envVal fileVal : Option String)
    (d : Bool) : Option Bool :=
  match ov with
  | some v => some v
  | none =>
    match envVal with
    | some s => parseBool s
    | none =>
      match fileVal with
      | some s => parseBool s
      | none => some d

/-- Modelled from the spec: construction of the `Settings` record by the
external settings library from the declared fields of `config.py`, the
explicit overrides, and the environment state. Returns `none` exactly on a
coercion failure, which the spec makes fatal at process start. -/
def Settings.construct (ov : SettingsOverrides) (st : EnvState) :
    Option Settings :=
  match resolveBool ov.debug (envLookup st.envVars "debug")
      (envLookup st.envFile "debug") ({} : Settings).debug with
  | some b =>
    some { app_name := resolveStr ov.app_name
             (envLookup st.envVars "app_name")
             (envLookup st.envFile "app_name") ({} : Settings).app_name
           debug := b }
  | none => none

/-- The environment-sourced raw value for a field: the environment
variable if present, otherwise the environment-file entry if present. -/
def envSourced (st : EnvState) (key : String) : Option String :=
  match envLookup st.envVars key with
  | some s => some s
  | none => envLookup st.envFile key

/-- The module-level singleton `settings = Settings()` of `config.py`,
constructed with no overrides from the ambient environment state. -/
def settings (st : EnvState) : Option Settings :=
  Settings.construct {} st

/-- The application object built in `main.py`: static metadata passed to
the `FastAPI(...)` constructor, and the registry of routers attached by
`include_router`. -/
structure FastAPIApp where
  title : String
  description : String
  version : String
  routers : List String
deriving Repr, DecidableEq

/-- The `app` singleton of `main.py`, with the `health` router attached. -/
def app : FastAPIApp :=
  { title := "My FastAPI App"
    description := "Created with DevTools Framework"
    version := "1.0.0"
    routers := ["health"] }

/-- An HTTP response: status code and a JSON object body rendered as
key-value pairs. -/
structure Response where
  status : Nat
  body : List (String × String)
deriving Repr, DecidableEq

/-- The literal dictionary returned by the `root` handler in `main.py`. -/
def rootBody : List (String × String) :=
  [("message", "Welcome to FastAPI"), ("docs", "/docs"),
   ("health", "/health")]

/-- The `root` handler of `main.py` serving `GET /`. It takes the ambient
application object and settings singleton as the state it could observe or
mutate, and returns the framework-produced 200 response holding the static
dictionary, together with the (untouched) state. -/
def root (a : FastAPIApp) (s : Settings) :
    Response × FastAPIApp × Settings :=
  ({ status := 200, body := rootBody }, a, s)

/-- First-defined-wins resolution chain, written from the spec's words:
"in order of precedence ...: explicit overrides, environment variables, an
optional environment file, then hard-coded defaults". -/
def firstSome {α : Type} : List (Option α) → α → α
  | [], d => d
  | some v :: _, _ => v
  | none :: rest, d => firstSome rest d

theorem resolveStr_eq_firstSome (ov e f : Option String) (d : String) :
    resolveStr ov e f d = firstSome [ov, e, f] d := by
  cases ov <;> cases e <;> cases f <;> rfl

theorem resolveBool_eq_firstSome (ov : Option Bool) (e f : Option String)
    (d b : Bool) (h : resolveBool ov e f d = some b) :
    b = firstSome [ov, e.bind parseBool, f.bind parseBool] d := by
  cases ov <;> cases e <;> cases f <;>
    simp_all [resolveBool, firstSome, Option.bind]

/-- C1: every request to `GET /` is answered with status 200 and a body
equal to exactly the three-field payload
`{"message": "Welcome to FastAPI", "docs": "/docs", "health": "/health"}`,
whatever the settings singleton holds. -/
theorem root_response (s : Settings) :
    (root app s).1.status = 200 ∧
    (root app s).1.body =
      [("message", "Welcome to FastAPI"), ("docs", "/docs"),
       ("health", "/health")] :=
  ⟨rfl, rfl⟩

/-- C2: constructing `Settings` with no environment file and no
environment variables yields `app_name = "My FastAPI App"` and
`debug = false`. -/
theorem settings_defaults :
    Settings.construct {} ⟨[], []⟩ =
      some { app_name := "My FastAPI App", debug := false } :=
  rfl

/-- C3: construction of the singleton (`Settings()`, no overrides) fails
exactly when an environment-sourced value for a declared field cannot be
coerced to its type; the only coercible-failure field is `debug`, so no
other failure mode exists. -/
theorem construct_fails_iff_coercion (st : EnvState) :
    Settings.construct {} st = none ↔
      ∃ s, envSourced st "debug" = some s ∧ parseBool s = none := by
  unfold Settings.construct envSourced resolveBool
  cases h1 : envLookup st.envVars "debug" <;>
    cases h2 : envLookup st.envFile "debug" <;>
      simp_all <;> cases hp : parseBool _ <;> simp_all

/-- C4: if the environment variable mapped to `debug` holds a truthy
boolean token, the constructed record has `debug = true`. -/
theorem debug_truthy_env (s : String) (st : EnvState)
    (hp : parseBool s = some true)
    (he : envLookup st.envVars "debug" = some s) :
    ∃ r, Settings.construct {} st = some r ∧ r.debug = true := by
  refine ⟨Settings.mk (resolveStr none (envLookup st.envVars "app_name")
    (envLookup st.envFile "app_name") ({} : Settings).app_name) true,
    ?_, rfl⟩
  unfold Settings.construct
  simp [resolveBool, he, hp]

/-- Closed instance of `debug_truthy_env` at `DEBUG=true`. -/
theorem debug_truthy_env_witness :
    parseBool "true" = some true ∧
    ∃ r, Settings.construct {} ⟨[("DEBUG", "true")], []⟩ = some r ∧
      r.debug = true :=
  ⟨by decide,
   debug_truthy_env "true" ⟨[("DEBUG", "true")], []⟩ (by decide) (by decide)⟩

/-- C5: construction is deterministic in the environment: two environment
states that agree, key for key, on every environment-variable and
environment-file lookup produce identical records. -/
theorem construct_deterministic (ov : SettingsOverrides) (st1 st2 : EnvState)
    (hv : ∀ k, envLookup st1.envVars k = envLookup st2.envVars k)
    (hf : ∀ k, envLookup st1.envFile k = envLookup st2.envFile k) :
    Settings.construct ov st1 = Settings.construct ov st2 := by
  unfold Settings.construct
  rw [hv "app_name", hv "debug", hf "app_name", hf "debug"]

/-- Closed instance of `construct_deterministic`: the same binding spelt
`DEBUG` and `debug` gives lookup-identical states, hence equal records. -/
theorem construct_deterministic_witness :
    Settings.construct {} ⟨[("DEBUG", "1")], []⟩ =
      Settings.construct {} ⟨[("debug", "1")], []⟩ :=
  construct_deterministic {} ⟨[("DEBUG", "1")], []⟩ ⟨[("debug", "1")], []⟩
    (fun k => by
      have h : lowerStr "DEBUG" = lowerStr "debug" := by decide
      simp only [envLookup, List.find?, h]
      cases hc : lowerStr "debug" == lowerStr k <;> simp [hc])
    (fun _ => rfl)

/-- C6: each constructed field is fixed by the precedence chain explicit
override, then environment variable, then environment file, then the
hard-coded default (`firstSome` is that chain written from the spec). -/
theorem field_precedence (ov : SettingsOverrides) (st : EnvState)
    (r : Settings) (h : Settings.construct ov st = some r) :
    r.app_name = firstSome
      [ov.app_name, envLookup st.envVars "app_name",
       envLookup st.envFile "app_name"] ({} : Settings).app_name ∧
    r.debug = firstSome
      [ov.debug, (envLookup st.envVars "debug").bind parseBool,
       (envLookup st.envFile "debug").bind parseBool]
      ({} : Settings).debug := by
  unfold Settings.construct at h
  cases hb : resolveBool ov.debug (envLookup st.envVars "debug")
      (envLookup st.envFile "debug") ({} : Settings).debug with
  | none => rw [hb] at h; exact absurd h (by simp)
  | some b =>
    rw [hb] at h
    simp only [Option.some.injEq] at h
    subst h
    exact ⟨resolveStr_eq_firstSome _ _ _ _,
           resolveBool_eq_firstSome _ _ _ _ _ hb⟩

/-- Closed instance of `field_precedence`: an explicit override beats an
environment variable that names the same field. -/
theorem field_precedence_witness :
    ({ app_name := "X", debug := true } : Settings).app_name = firstSome
      [some "X", envLookup [("APP_NAME", "Y")] "app_name",
       envLookup [] "app_name"] ({} : Settings).app_name ∧
    ({ app_name := "X", debug := true } : Settings).debug = firstSome
      [some true, (envLookup [("APP_NAME", "Y")] "debug").bind parseBool,
       (envLookup [] "debug").bind parseBool] ({} : Settings).debug :=
  field_precedence ⟨some "X", some true⟩ ⟨[("APP_NAME", "Y")], []⟩
    { app_name := "X", debug := true } (by decide)

/-- C8: the root handler takes no request inputs and has no side effects:
the application object (its router registry included) and the settings
singleton are unchanged after it returns. -/
theorem root_no_side_effects (a : FastAPIApp) (s : Settings) :
    (root a s).2.1 = a ∧ (root a s).2.1.routers = a.routers ∧
    (root a s).2.2 = s :=
  ⟨rfl, rfl, rfl⟩

/-- C9: the title metadata passed to the application constructor in
`main.py` coincides, character for character, with the default value of
the `app_name` field of `Settings` in `config.py`. -/
theorem title_matches_default_app_name :
    app.title = ({} : Settings).app_name ∧ app.title = "My FastAPI App" :=
  ⟨rfl, rfl⟩

/-- C10: any string supplied through the environment source mapped to
`app_name` is accepted — string coercion cannot fail — and becomes the
constructed record's `app_name` verbatim. -/
theorem app_name_env_any_string (s : String) :
    (Settings.construct {} ⟨[("APP_NAME", s)], []⟩ =
      some { app_name := s, debug := false }) ∧
    (∀ st r, envSourced st "app_name" = some s →
      Settings.construct {} st = some r → r.app_name = s) := by
  refine ⟨rfl, fun st r hs hr => ?_⟩
  unfold Settings.construct at hr
  unfold envSourced at hs
  cases hb : resolveBool ({} : SettingsOverrides).debug
      (envLookup st.envVars "debug") (envLookup st.envFile "debug")
      ({} : Settings).debug <;> rw [hb] at hr
  · exact absurd hr (by simp)
  · simp only [Option.some.injEq] at hr
    subst hr
    cases h1 : envLookup st.envVars "app_name" <;>
      cases h2 : envLookup st.envFile "app_name" <;>
        simp_all [resolveStr]

/-- Closed instance of `app_name_env_any_string` at a concrete string. -/
theorem app_name_env_any_string_witness :
    Settings.construct {} ⟨[("APP_NAME", "Zed")], []⟩ =
      some { app_name := "Zed", debug := false } :=
  (app_name_env_any_string "Zed").1

end DevTools
